import Mathlib

/-
  Verification development for the whisper-to-me voice-dictation utility.

  The Python sources are embedded shallowly:
  - configuration section objects (dataclasses) are modelled as association
    lists from field name to a dynamic TOML-style value, which is exactly the
    view `dataclasses.asdict`, `hasattr`/`setattr` and the dict-based profile
    diffs operate on;
  - the hotkey state machine (pynput `HotKey` objects plus the handlers in
    `whisper_to_me/main.py`) is modelled as an explicit step function on a
    state record, producing a list of semantic events;
  - fallible code returns `Except`; collaborator invocations of the
    recording/transcription orchestrator are recorded as an action trace.
-/

namespace WhisperToMe

/-- Dynamic value stored in a configuration field, as read from TOML.
`pyNone` models Python `None`; `pyDict` models the string-to-string
`audio_device` mapping. Equality is structural, which agrees with Python
equality on the well-typed configuration values handled here. -/
inductive PyValue where
  | pyNone
  | pyBool (b : Bool)
  | pyInt (n : Int)
  | pyStr (s : String)
  | pyDict (entries : List (String × String))
deriving DecidableEq, Repr

/-- Configuration section object viewed as its ordered field table, the view
`dataclasses.asdict` produces and `hasattr`/`setattr` operate on. -/
abbrev Sect := List (String × PyValue)

/-- Lookup of the first entry with the given key (Python attribute read /
`dict.get`). -/
def alookup {β : Type} : List (String × β) → String → Option β
  | [], _ => none
  | kv :: t, k => if kv.1 = k then some kv.2 else alookup t k

/-- Key list of an association list (the field names of a section). -/
def akeys {β : Type} (l : List (String × β)) : List String :=
  l.map Prod.fst

/-- Python `hasattr`: does the object have a field of this name? -/
def ahas {β : Type} (l : List (String × β)) (k : String) : Bool :=
  (alookup l k).isSome

/-- Python `setattr` on an existing attribute: replace the value stored under
`k`, leaving the field set unchanged (a no-op when the key is absent, which
matches the `hasattr`-guarded call sites below). -/
def aset {β : Type} (l : List (String × β)) (k : String) (v : β) : List (String × β) :=
  l.map fun kv => if kv.1 = k then (k, v) else kv

@[simp]
theorem alookup_nil {β : Type} (k : String) : alookup ([] : List (String × β)) k = none := rfl

@[simp]
theorem alookup_cons {β : Type} (kv : String × β) (t : List (String × β)) (k : String) :
    alookup (kv :: t) k = if kv.1 = k then some kv.2 else alookup t k := rfl

@[simp]
theorem akeys_nil {β : Type} : akeys ([] : List (String × β)) = [] := rfl

@[simp]
theorem akeys_cons {β : Type} (kv : String × β) (t : List (String × β)) :
    akeys (kv :: t) = kv.1 :: akeys t := rfl

theorem akeys_aset {β : Type} (l : List (String × β)) (k : String) (v : β) :
    akeys (aset l k v) = akeys l := by
  induction l with
  | nil => rfl
  | cons kv t ih =>
      simp only [aset] at ih ⊢
      simp only [List.map_cons, akeys_cons]
      by_cases h : kv.1 = k
      · simp [h, ih]
      · simp [h, ih]

theorem alookup_aset {β : Type} (l : List (String × β)) (k j : String) (v : β) :
    alookup (aset l k v) j =
      if j = k then (alookup l j).map (fun _ => v) else alookup l j := by
  induction l with
  | nil => simp [aset]
  | cons kv t ih =>
      simp only [aset] at ih ⊢
      simp only [List.map_cons, alookup_cons]
      by_cases hk : kv.1 = k
      · by_cases hj : j = k
        · simp [hk, hj, ih]
        · have hkj : ¬ (k = j) := fun h => hj h.symm
          simp [hk, hj, hkj, ih]
      · by_cases hj : kv.1 = j
        · have hjk : ¬ (j = k) := fun h => hk (hj.trans h)
          simp [hk, hj, hjk]
        · simp [hk, hj, ih]

theorem ahas_aset {β : Type} (l : List (String × β)) (k j : String) (v : β) :
    ahas (aset l k v) j = ahas l j := by
  unfold ahas
  rw [alookup_aset]
  by_cases hj : j = k
  · subst hj
    simp only [if_pos rfl]
    cases alookup l j <;> simp
  · simp [hj]

theorem alookup_aset_self {β : Type} (l : List (String × β)) (k : String) (v : β)
    (h : ahas l k = true) : alookup (aset l k v) k = some v := by
  rw [alookup_aset]
  unfold ahas at h
  cases hl : alookup l k with
  | none => rw [hl] at h; simp at h
  | some w => simp [hl]

theorem alookup_isSome_of_mem_akeys {β : Type} (l : List (String × β)) (k : String)
    (h : k ∈ akeys l) : ∃ v, alookup l k = some v := by
  induction l with
  | nil => simp [akeys] at h
  | cons kv t ih =>
      simp only [akeys_cons] at h
      rcases List.mem_cons.mp h with h | h
      · exact ⟨kv.2, by simp [h.symm]⟩
      · by_cases hk : kv.1 = k
        · exact ⟨kv.2, by simp [hk]⟩
        · rcases ih h with ⟨v, hv⟩
          exact ⟨v, by simp [hk, hv]⟩

theorem ahas_of_mem_akeys {β : Type} (l : List (String × β)) (k : String)
    (h : k ∈ akeys l) : ahas l k = true := by
  rcases alookup_isSome_of_mem_akeys l k h with ⟨v, hv⟩
  simp [ahas, hv]

theorem mem_akeys_of_mem {β : Type} {l : List (String × β)} {k : String} {v : β}
    (h : (k, v) ∈ l) : k ∈ akeys l := by
  exact List.mem_map.mpr ⟨(k, v), h, rfl⟩

theorem alookup_eq_some_of_mem_nodup {β : Type} {l : List (String × β)} {k : String} {v : β}
    (hnd : (akeys l).Nodup) (h : (k, v) ∈ l) : alookup l k = some v := by
  induction l with
  | nil => simp at h
  | cons kv t ih =>
      simp only [akeys_cons] at hnd
      rcases List.nodup_cons.mp hnd with ⟨hhead, htail⟩
      rcases List.mem_cons.mp h with h | h
      · rw [← h]
        simp
      · have hk : kv.1 ≠ k := by
          intro he
          exact hhead (he ▸ mem_akeys_of_mem h)
        simp [hk, ih htail h]

theorem mem_of_alookup_eq_some {β : Type} {l : List (String × β)} {k : String} {v : β}
    (h : alookup l k = some v) : (k, v) ∈ l := by
  induction l with
  | nil => simp at h
  | cons kv t ih =>
      by_cases hk : kv.1 = k
      · simp only [alookup_cons, if_pos hk] at h
        have hv : kv.2 = v := Option.some.inj h
        have hkv : kv = (k, v) := by rw [← hk, ← hv]
        exact List.mem_cons.mpr (Or.inl hkv.symm)
      · simp only [alookup_cons, if_neg hk] at h
        exact List.mem_cons_of_mem _ (ih h)

/-
  ConfigDiffer (src/whisper_to_me/config_differ.py).

  `create_diff` walks `asdict(current_config)` and keeps a field when it is
  not excluded and its value differs from `default_config[section_name].get(key)`
  (where a missing key reads as Python `None`).  `apply_diff` walks the diff
  dict and, per key, overwrites the field when `hasattr(base_config, key)` and
  otherwise logs a warning and skips; the warned keys are collected in the
  second component instead of being written to the global logger.
-/

/-- ConfigDiffer.create_diff restricted to a known default section (the body
of the `else` branch once `default_section = default_config[section_name]` has
been fetched). -/
def diffAgainst (excludeFields : List String) (currentConfig defaultSection : Sect) : Sect :=
  currentConfig.filter fun kv =>
    decide (kv.1 ∉ excludeFields) &&
      decide (kv.2 ≠ (alookup defaultSection kv.1).getD PyValue.pyNone)

/-- ConfigDiffer.create_diff: returns the empty diff when the section name is
absent from the default configuration dictionary. -/
def createDiff (excludeFields : List String) (currentConfig : Sect)
    (defaultConfig : List (String × Sect)) (sectionName : String) : Sect :=
  match alookup defaultConfig sectionName with
  | none => []
  | some defaultSection => diffAgainst excludeFields currentConfig defaultSection

/-- Body of the loop in ConfigDiffer.apply_diff: overwrite a present field,
record a warning for an unknown one. -/
def applyDiffStep (acc : Sect × List String) (kv : String × PyValue) : Sect × List String :=
  if ahas acc.1 kv.1 then (aset acc.1 kv.1 kv.2, acc.2)
  else (acc.1, acc.2 ++ [kv.1])

/-- ConfigDiffer.apply_diff: the mutated configuration object together with
the list of unknown field names that were warned about and skipped. -/
def applyDiff (baseConfig : Sect) (diff : Sect) : Sect × List String :=
  diff.foldl applyDiffStep (baseConfig, [])

theorem applyDiffStep_known (base : Sect) (w : List String) (kv : String × PyValue)
    (h : ahas base kv.1 = true) :
    applyDiffStep (base, w) kv = (aset base kv.1 kv.2, w) := by
  simp [applyDiffStep, h]

theorem applyDiffStep_unknown (base : Sect) (w : List String) (kv : String × PyValue)
    (h : ahas base kv.1 = false) :
    applyDiffStep (base, w) kv = (base, w ++ [kv.1]) := by
  simp [applyDiffStep, h]

theorem akeys_foldl_applyDiffStep (diff : Sect) (base : Sect) (w : List String) :
    akeys (diff.foldl applyDiffStep (base, w)).1 = akeys base := by
  induction diff generalizing base w with
  | nil => rfl
  | cons kv t ih =>
      rw [List.foldl_cons]
      by_cases h : ahas base kv.1
      · rw [applyDiffStep_known base w kv h, ih]
        exact akeys_aset base kv.1 kv.2
      · rw [applyDiffStep_unknown base w kv (by simpa using h)]
        exact ih base (w ++ [kv.1])

theorem alookup_foldl_applyDiffStep_not_mem (diff : Sect) (base : Sect) (w : List String)
    (k : String) (hk : k ∉ akeys diff) :
    alookup (diff.foldl applyDiffStep (base, w)).1 k = alookup base k := by
  induction diff generalizing base w with
  | nil => rfl
  | cons kv t ih =>
      simp only [akeys_cons, List.mem_cons] at hk
      push_neg at hk
      rw [List.foldl_cons]
      by_cases h : ahas base kv.1
      · rw [applyDiffStep_known base w kv h, ih _ _ hk.2, alookup_aset]
        simp [hk.1]
      · rw [applyDiffStep_unknown base w kv (by simpa using h)]
        exact ih _ _ hk.2

theorem mem_snd_foldl_applyDiffStep (diff : Sect) (base : Sect) (w : List String)
    (k : String) (hkw : k ∈ w) : k ∈ (diff.foldl applyDiffStep (base, w)).2 := by
  induction diff generalizing base w with
  | nil => exact hkw
  | cons kv t ih =>
      rw [List.foldl_cons]
      by_cases h : ahas base kv.1
      · rw [applyDiffStep_known base w kv h]
        exact ih _ _ hkw
      · rw [applyDiffStep_unknown base w kv (by simpa using h)]
        exact ih _ _ (List.mem_append.mpr (Or.inl hkw))

theorem alookup_foldl_applyDiffStep_mem (diff : Sect) (base : Sect) (w : List String)
    (k : String) (v : PyValue) (hnd : (akeys diff).Nodup) (hmem : (k, v) ∈ diff)
    (hbase : ahas base k = true) :
    alookup (diff.foldl applyDiffStep (base, w)).1 k = some v := by
  induction diff generalizing base w with
  | nil => simp at hmem
  | cons kv t ih =>
      simp only [akeys_cons] at hnd
      rcases List.nodup_cons.mp hnd with ⟨hhead, htail⟩
      rw [List.foldl_cons]
      rcases List.mem_cons.mp hmem with hm | hm
      · have hk1 : kv.1 = k := by rw [← hm]
        have hk2 : kv.2 = v := by rw [← hm]
        have hknot : k ∉ akeys t := hk1 ▸ hhead
        rw [applyDiffStep_known base w kv (hk1 ▸ hbase)]
        rw [alookup_foldl_applyDiffStep_not_mem t _ _ k hknot, hk1, hk2]
        exact alookup_aset_self base k v hbase
      · by_cases h : ahas base kv.1
        · rw [applyDiffStep_known base w kv h]
          exact ih _ _ htail hm (by rw [ahas_aset]; exact hbase)
        · rw [applyDiffStep_unknown base w kv (by simpa using h)]
          exact ih _ _ htail hm hbase

theorem mem_snd_foldl_applyDiffStep_unknown (diff : Sect) (base : Sect) (w : List String)
    (k : String) (v : PyValue) (hmem : (k, v) ∈ diff) (hbase : ahas base k = false) :
    k ∈ (diff.foldl applyDiffStep (base, w)).2 := by
  induction diff generalizing base w with
  | nil => simp at hmem
  | cons kv t ih =>
      rw [List.foldl_cons]
      rcases List.mem_cons.mp hmem with hm | hm
      · have hk1 : kv.1 = k := by rw [← hm]
        rw [applyDiffStep_unknown base w kv (hk1 ▸ hbase)]
        rw [hk1]
        exact mem_snd_foldl_applyDiffStep t _ _ k (List.mem_append.mpr (Or.inr (by simp)))
      · by_cases h : ahas base kv.1
        · rw [applyDiffStep_known base w kv h]
          exact ih _ _ hm (by rw [ahas_aset]; exact hbase)
        · rw [applyDiffStep_unknown base w kv (by simpa using h)]
          exact ih _ _ hm hbase

theorem alookup_foldl_applyDiffStep_no_attr (diff : Sect) (base : Sect) (w : List String)
    (k : String) (hbase : ahas base k = false) :
    alookup (diff.foldl applyDiffStep (base, w)).1 k = alookup base k := by
  induction diff generalizing base w with
  | nil => rfl
  | cons kv t ih =>
      rw [List.foldl_cons]
      by_cases h : ahas base kv.1
      · have hne : k ≠ kv.1 := by
          intro he
          rw [he, h] at hbase
          exact absurd hbase (by simp)
        rw [applyDiffStep_known base w kv h]
        rw [ih _ _ (by rw [ahas_aset]; exact hbase), alookup_aset]
        simp [hne]
      · rw [applyDiffStep_unknown base w kv (by simpa using h)]
        exact ih _ _ hbase

theorem akeys_diffAgainst_nodup (excl : List String) (cur d : Sect)
    (hnd : (akeys cur).Nodup) : (akeys (diffAgainst excl cur d)).Nodup := by
  have hsub : List.Sublist (diffAgainst excl cur d) cur := List.filter_sublist cur
  exact List.Nodup.sublist (hsub.map Prod.fst) hnd

theorem mem_diffAgainst {excl : List String} {cur d : Sect} {k : String} {v : PyValue} :
    (k, v) ∈ diffAgainst excl cur d ↔
      (k, v) ∈ cur ∧ k ∉ excl ∧ v ≠ (alookup d k).getD PyValue.pyNone := by
  unfold diffAgainst
  rw [List.mem_filter]
  simp [and_assoc]

/-- Round trip of a single section through create_diff followed by apply_diff
over the same default section: non-excluded fields recover the current value,
excluded fields keep the default value. -/
theorem roundtrip_section (excl : List String) (cur defSec : Sect) (k : String)
    (hkeys : akeys cur = akeys defSec) (hnd : (akeys cur).Nodup) (hk : k ∈ akeys cur) :
    alookup (applyDiff defSec (diffAgainst excl cur defSec)).1 k =
      if k ∈ excl then alookup defSec k else alookup cur k := by
  by_cases hmemd : k ∈ akeys (diffAgainst excl cur defSec)
  · rcases alookup_isSome_of_mem_akeys _ k hmemd with ⟨v, hv⟩
    have hmem : (k, v) ∈ diffAgainst excl cur defSec := mem_of_alookup_eq_some hv
    rcases mem_diffAgainst.mp hmem with ⟨hcur, hexcl, hne⟩
    have hbase : ahas defSec k = true := ahas_of_mem_akeys _ _ (hkeys ▸ hk)
    have hndd : (akeys (diffAgainst excl cur defSec)).Nodup :=
      akeys_diffAgainst_nodup excl cur defSec hnd
    rw [if_neg hexcl]
    unfold applyDiff
    rw [alookup_foldl_applyDiffStep_mem _ _ _ k v hndd hmem hbase]
    exact (alookup_eq_some_of_mem_nodup hnd hcur).symm
  · unfold applyDiff
    rw [alookup_foldl_applyDiffStep_not_mem _ _ _ k hmemd]
    by_cases hexcl : k ∈ excl
    · rw [if_pos hexcl]
    · rw [if_neg hexcl]
      rcases alookup_isSome_of_mem_akeys cur k hk with ⟨v, hv⟩
      have hcur : (k, v) ∈ cur := mem_of_alookup_eq_some hv
      have hveq : v = (alookup defSec k).getD PyValue.pyNone := by
        by_contra hne
        exact hmemd (mem_akeys_of_mem (mem_diffAgainst.mpr ⟨hcur, hexcl, hne⟩))
      rcases alookup_isSome_of_mem_akeys defSec k (hkeys ▸ hk) with ⟨w, hw⟩
      rw [hv, hw]
      rw [hw] at hveq
      simp only [Option.getD_some] at hveq
      rw [hveq]

/-- C8: ConfigDiffer.apply_diff overwrites every diff key that names an
existing field of the target section, records a warning for (and skips) every
diff key that does not, leaves all other fields and the field set untouched,
and — being a total function in this embedding, mirroring the
hasattr-guarded loop — never raises. -/
theorem apply_diff_unknown_field_tolerance (base diff : Sect)
    (hnd : (akeys diff).Nodup) :
    (∀ k v, (k, v) ∈ diff → ahas base k = true →
        alookup (applyDiff base diff).1 k = some v) ∧
    (∀ k v, (k, v) ∈ diff → ahas base k = false →
        k ∈ (applyDiff base diff).2 ∧
          alookup (applyDiff base diff).1 k = alookup base k) ∧
    (∀ k, k ∉ akeys diff → alookup (applyDiff base diff).1 k = alookup base k) ∧
    akeys (applyDiff base diff).1 = akeys base := by
  refine ⟨?_, ?_, ?_, ?_⟩
  · intro k v hmem hbase
    exact alookup_foldl_applyDiffStep_mem diff base [] k v hnd hmem hbase
  · intro k v hmem hbase
    constructor
    · exact mem_snd_foldl_applyDiffStep_unknown diff base [] k v hmem hbase
    · exact alookup_foldl_applyDiffStep_no_attr diff base [] k hbase
  · intro k hk
    exact alookup_foldl_applyDiffStep_not_mem diff base [] k hk
  · exact akeys_foldl_applyDiffStep diff base []

/-- Witness for C8: a stored diff holding a recognized field (mode) and an
unrecognized one (legacy_field) applied to a recording-style section:
the recognized field is overwritten, the unrecognized one is warned about
and skipped, the untouched field and the field set survive. -/
theorem apply_diff_unknown_field_tolerance_witness :
    alookup (applyDiff
        [("mode", PyValue.pyStr "push-to-talk"), ("trigger_key", PyValue.pyStr "<scroll_lock>")]
        [("mode", PyValue.pyStr "tap-mode"), ("legacy_field", PyValue.pyInt 1)]).1 "mode" =
      some (PyValue.pyStr "tap-mode") ∧
    "legacy_field" ∈ (applyDiff
        [("mode", PyValue.pyStr "push-to-talk"), ("trigger_key", PyValue.pyStr "<scroll_lock>")]
        [("mode", PyValue.pyStr "tap-mode"), ("legacy_field", PyValue.pyInt 1)]).2 ∧
    alookup (applyDiff
        [("mode", PyValue.pyStr "push-to-talk"), ("trigger_key", PyValue.pyStr "<scroll_lock>")]
        [("mode", PyValue.pyStr "tap-mode"), ("legacy_field", PyValue.pyInt 1)]).1
        "trigger_key" = some (PyValue.pyStr "<scroll_lock>") ∧
    akeys (applyDiff
        [("mode", PyValue.pyStr "push-to-talk"), ("trigger_key", PyValue.pyStr "<scroll_lock>")]
        [("mode", PyValue.pyStr "tap-mode"), ("legacy_field", PyValue.pyInt 1)]).1 =
      ["mode", "trigger_key"] := by
  have h := apply_diff_unknown_field_tolerance
    [("mode", PyValue.pyStr "push-to-talk"), ("trigger_key", PyValue.pyStr "<scroll_lock>")]
    [("mode", PyValue.pyStr "tap-mode"), ("legacy_field", PyValue.pyInt 1)] (by decide)
  refine ⟨h.1 "mode" (PyValue.pyStr "tap-mode") (by decide) (by decide),
    (h.2.1 "legacy_field" (PyValue.pyInt 1) (by decide) (by decide)).1,
    ?_, h.2.2.2⟩
  have h3 := h.2.2.1 "trigger_key" (by decide)
  rw [h3]
  rfl

/-
  AppConfig (src/whisper_to_me/config.py) and
  ConfigSectionDiffer (src/whisper_to_me/config_differ.py).
-/

/-- Profile data: section name to sparse field dict, as stored under
`profiles` in the TOML file. -/
abbrev ProfileData := List (String × Sect)

/-- AppConfig: the four configuration sections plus the profile store. -/
structure AppConfigS where
  general : Sect
  recording : Sect
  ui : Sect
  advanced : Sect
  profiles : List (String × ProfileData)
deriving DecidableEq, Repr

/-- Exclusion set of the general-section differ in ConfigSectionDiffer:
`last_profile` is session metadata and never diffed. -/
def generalExclude : List String := ["last_profile"]

/-- ConfigSectionDiffer.create_profile_data: diff each section against the
default configuration dictionary and keep only non-empty section diffs. -/
def createProfileData (config : AppConfigS) (defaultConfig : List (String × Sect)) :
    ProfileData :=
  let generalDiff := createDiff generalExclude config.general defaultConfig "general"
  let recordingDiff := createDiff [] config.recording defaultConfig "recording"
  let uiDiff := createDiff [] config.ui defaultConfig "ui"
  let advancedDiff := createDiff [] config.advanced defaultConfig "advanced"
  (if generalDiff ≠ [] then [("general", generalDiff)] else []) ++
    (if recordingDiff ≠ [] then [("recording", recordingDiff)] else []) ++
    (if uiDiff ≠ [] then [("ui", uiDiff)] else []) ++
    (if advancedDiff ≠ [] then [("advanced", advancedDiff)] else [])

/-- ConfigSectionDiffer.apply_profile_data: apply each section diff present in
the profile data to the corresponding section of the configuration.  The
warning lists produced by apply_diff go to the logger and are dropped here. -/
def applyProfileData (base : AppConfigS) (profileData : ProfileData) : AppConfigS :=
  let base1 := match alookup profileData "general" with
    | some d => { base with general := (applyDiff base.general d).1 }
    | none => base
  let base2 := match alookup profileData "recording" with
    | some d => { base1 with recording := (applyDiff base1.recording d).1 }
    | none => base1
  let base3 := match alookup profileData "ui" with
    | some d => { base2 with ui := (applyDiff base2.ui d).1 }
    | none => base2
  match alookup profileData "advanced" with
    | some d => { base3 with advanced := (applyDiff base3.advanced d).1 }
    | none => base3

theorem alookup_append {β : Type} (a b : List (String × β)) (k : String) :
    alookup (a ++ b) k = ((alookup a k).rec (alookup b k) (fun v => some v) : Option β) := by
  induction a with
  | nil => rfl
  | cons kv t ih =>
      by_cases h : kv.1 = k
      · simp [h]
      · simp [h, ih]

theorem applyDiff_nil (base : Sect) : applyDiff base [] = (base, []) := rfl

theorem alookup_createProfileData_general (config : AppConfigS)
    (defaultConfig : List (String × Sect)) :
    alookup (createProfileData config defaultConfig) "general" =
      (if createDiff generalExclude config.general defaultConfig "general" = [] then none
       else some (createDiff generalExclude config.general defaultConfig "general")) := by
  by_cases hg : createDiff generalExclude config.general defaultConfig "general" = [] <;>
    by_cases hr : createDiff [] config.recording defaultConfig "recording" = [] <;>
      by_cases hu : createDiff [] config.ui defaultConfig "ui" = [] <;>
        by_cases ha : createDiff [] config.advanced defaultConfig "advanced" = [] <;>
          simp [createProfileData, hg, hr, hu, ha, alookup_append]

theorem alookup_createProfileData_recording (config : AppConfigS)
    (defaultConfig : List (String × Sect)) :
    alookup (createProfileData config defaultConfig) "recording" =
      (if createDiff [] config.recording defaultConfig "recording" = [] then none
       else some (createDiff [] config.recording defaultConfig "recording")) := by
  by_cases hg : createDiff generalExclude config.general defaultConfig "general" = [] <;>
    by_cases hr : createDiff [] config.recording defaultConfig "recording" = [] <;>
      by_cases hu : createDiff [] config.ui defaultConfig "ui" = [] <;>
        by_cases ha : createDiff [] config.advanced defaultConfig "advanced" = [] <;>
          simp [createProfileData, hg, hr, hu, ha, alookup_append]

theorem alookup_createProfileData_ui (config : AppConfigS)
    (defaultConfig : List (String × Sect)) :
    alookup (createProfileData config defaultConfig) "ui" =
      (if createDiff [] config.ui defaultConfig "ui" = [] then none
       else some (createDiff [] config.ui defaultConfig "ui")) := by
  by_cases hg : createDiff generalExclude config.general defaultConfig "general" = [] <;>
    by_cases hr : createDiff [] config.recording defaultConfig "recording" = [] <;>
      by_cases hu : createDiff [] config.ui defaultConfig "ui" = [] <;>
        by_cases ha : createDiff [] config.advanced defaultConfig "advanced" = [] <;>
          simp [createProfileData, hg, hr, hu, ha, alookup_append]

theorem alookup_createProfileData_advanced (config : AppConfigS)
    (defaultConfig : List (String × Sect)) :
    alookup (createProfileData config defaultConfig) "advanced" =
      (if createDiff [] config.advanced defaultConfig "advanced" = [] then none
       else some (createDiff [] config.advanced defaultConfig "advanced")) := by
  by_cases hg : createDiff generalExclude config.general defaultConfig "general" = [] <;>
    by_cases hr : createDiff [] config.recording defaultConfig "recording" = [] <;>
      by_cases hu : createDiff [] config.ui defaultConfig "ui" = [] <;>
        by_cases ha : createDiff [] config.advanced defaultConfig "advanced" = [] <;>
          simp [createProfileData, hg, hr, hu, ha, alookup_append]

theorem not_mem_akeys_diffAgainst_of_excl (excl : List String) (cur d : Sect) (k : String)
    (hk : k ∈ excl) : k ∉ akeys (diffAgainst excl cur d) := by
  intro hmem
  rcases alookup_isSome_of_mem_akeys _ _ hmem with ⟨v, hv⟩
  rcases mem_diffAgainst.mp (mem_of_alookup_eq_some hv) with ⟨_, hne, _⟩
  exact hne hk

theorem applyProfileData_createProfileData (config : AppConfigS)
    (defaultConfig : List (String × Sect)) (base : AppConfigS) :
    applyProfileData base (createProfileData config defaultConfig) =
      { general :=
          (applyDiff base.general
            (createDiff generalExclude config.general defaultConfig "general")).1,
        recording :=
          (applyDiff base.recording
            (createDiff [] config.recording defaultConfig "recording")).1,
        ui := (applyDiff base.ui (createDiff [] config.ui defaultConfig "ui")).1,
        advanced :=
          (applyDiff base.advanced
            (createDiff [] config.advanced defaultConfig "advanced")).1,
        profiles := base.profiles } := by
  have hg := alookup_createProfileData_general config defaultConfig
  have hr := alookup_createProfileData_recording config defaultConfig
  have hu := alookup_createProfileData_ui config defaultConfig
  have ha := alookup_createProfileData_advanced config defaultConfig
  by_cases h1 : createDiff generalExclude config.general defaultConfig "general" = [] <;>
    by_cases h2 : createDiff [] config.recording defaultConfig "recording" = [] <;>
      by_cases h3 : createDiff [] config.ui defaultConfig "ui" = [] <;>
        by_cases h4 : createDiff [] config.advanced defaultConfig "advanced" = [] <;>
          simp_all [applyProfileData, applyDiff_nil]

/-- C1: profile diffing round-trips.  For every configuration C and default
configuration dictionary over the known section schemas (each section of C
has the same duplicate-free field list as the corresponding default section),
computing the sparse profile data with create_profile_data and applying it
with apply_profile_data to a fresh clone of the configuration corresponding
to the defaults reproduces C in every field of every section, except
general.last_profile, which is excluded from the diff and keeps the default
value. -/
theorem profile_diff_roundtrip
    (C : AppConfigS) (defaultConfig : List (String × Sect))
    (dg dr du da : Sect) (profs : List (String × ProfileData))
    (hDg : alookup defaultConfig "general" = some dg)
    (hDr : alookup defaultConfig "recording" = some dr)
    (hDu : alookup defaultConfig "ui" = some du)
    (hDa : alookup defaultConfig "advanced" = some da)
    (hkg : akeys C.general = akeys dg) (hndg : (akeys C.general).Nodup)
    (hkr : akeys C.recording = akeys dr) (hndr : (akeys C.recording).Nodup)
    (hku : akeys C.ui = akeys du) (hndu : (akeys C.ui).Nodup)
    (hka : akeys C.advanced = akeys da) (hnda : (akeys C.advanced).Nodup) :
    (∀ k, k ∈ akeys C.general → k ≠ "last_profile" →
        alookup (applyProfileData ⟨dg, dr, du, da, profs⟩
          (createProfileData C defaultConfig)).general k = alookup C.general k) ∧
    alookup (applyProfileData ⟨dg, dr, du, da, profs⟩
        (createProfileData C defaultConfig)).general "last_profile" =
      alookup dg "last_profile" ∧
    (∀ k, k ∈ akeys C.recording →
        alookup (applyProfileData ⟨dg, dr, du, da, profs⟩
          (createProfileData C defaultConfig)).recording k = alookup C.recording k) ∧
    (∀ k, k ∈ akeys C.ui →
        alookup (applyProfileData ⟨dg, dr, du, da, profs⟩
          (createProfileData C defaultConfig)).ui k = alookup C.ui k) ∧
    (∀ k, k ∈ akeys C.advanced →
        alookup (applyProfileData ⟨dg, dr, du, da, profs⟩
          (createProfileData C defaultConfig)).advanced k = alookup C.advanced k) := by
  have hAP := applyProfileData_createProfileData C defaultConfig ⟨dg, dr, du, da, profs⟩
  have hcg : createDiff generalExclude C.general defaultConfig "general" =
      diffAgainst generalExclude C.general dg := by
    simp [createDiff, hDg]
  have hcr : createDiff [] C.recording defaultConfig "recording" =
      diffAgainst [] C.recording dr := by
    simp [createDiff, hDr]
  have hcu : createDiff [] C.ui defaultConfig "ui" = diffAgainst [] C.ui du := by
    simp [createDiff, hDu]
  have hca : createDiff [] C.advanced defaultConfig "advanced" =
      diffAgainst [] C.advanced da := by
    simp [createDiff, hDa]
  rw [hAP, hcg, hcr, hcu, hca]
  refine ⟨?_, ?_, ?_, ?_, ?_⟩
  · intro k hk hne
    have h := roundtrip_section generalExclude C.general dg k hkg hndg hk
    rwa [if_neg (by simp [generalExclude, hne])] at h
  · have hlp : "last_profile" ∉ akeys (diffAgainst generalExclude C.general dg) :=
      not_mem_akeys_diffAgainst_of_excl generalExclude C.general dg "last_profile"
        (by simp [generalExclude])
    unfold applyDiff
    exact alookup_foldl_applyDiffStep_not_mem _ _ _ _ hlp
  · intro k hk
    have h := roundtrip_section [] C.recording dr k hkr hndr hk
    rwa [if_neg (by simp)] at h
  · intro k hk
    have h := roundtrip_section [] C.ui du k hku hndu hk
    rwa [if_neg (by simp)] at h
  · intro k hk
    have h := roundtrip_section [] C.advanced da k hka hnda hk
    rwa [if_neg (by simp)] at h

/-- Default general section from ConfigManager._get_default_config. -/
def defaultGeneralSect : Sect :=
  [("model", PyValue.pyStr "large-v3"), ("device", PyValue.pyStr "cuda"),
   ("language", PyValue.pyStr "auto"), ("debug", PyValue.pyBool false),
   ("last_profile", PyValue.pyStr "default"), ("trailing_space", PyValue.pyBool false)]

/-- Default recording section from ConfigManager._get_default_config. -/
def defaultRecordingSect : Sect :=
  [("mode", PyValue.pyStr "push-to-talk"), ("trigger_key", PyValue.pyStr "<scroll_lock>"),
   ("discard_key", PyValue.pyStr "<esc>"), ("audio_device", PyValue.pyNone)]

/-- Default ui section from ConfigManager._get_default_config. -/
def defaultUISect : Sect := [("use_tray", PyValue.pyBool true)]

/-- Default advanced section from ConfigManager._get_default_config. -/
def defaultAdvancedSect : Sect :=
  [("chunk_size", PyValue.pyInt 512), ("vad_filter", PyValue.pyBool true),
   ("initial_prompt", PyValue.pyStr "")]

/-- Default configuration dictionary from ConfigManager._get_default_config,
restricted to the four sections the differ reads (the empty `profiles` entry
is never consulted by create_diff). -/
def defaultConfigDict : List (String × Sect) :=
  [("general", defaultGeneralSect), ("recording", defaultRecordingSect),
   ("ui", defaultUISect), ("advanced", defaultAdvancedSect)]

/-- Sample valid configuration used to instantiate quantified theorems: the
defaults with model/device/language, mode/trigger key, chunk size and
last_profile changed. -/
def sampleConfigC : AppConfigS :=
  { general :=
      [("model", PyValue.pyStr "tiny"), ("device", PyValue.pyStr "cpu"),
       ("language", PyValue.pyStr "en"), ("debug", PyValue.pyBool false),
       ("last_profile", PyValue.pyStr "work"), ("trailing_space", PyValue.pyBool false)],
    recording :=
      [("mode", PyValue.pyStr "tap-mode"), ("trigger_key", PyValue.pyStr "<f9>"),
       ("discard_key", PyValue.pyStr "<esc>"), ("audio_device", PyValue.pyNone)],
    ui := [("use_tray", PyValue.pyBool true)],
    advanced :=
      [("chunk_size", PyValue.pyInt 1024), ("vad_filter", PyValue.pyBool true),
       ("initial_prompt", PyValue.pyStr "")],
    profiles := [] }

/-- Witness for C1 at a concrete configuration and the concrete default
dictionary of the source: changed fields come back, last_profile stays at the
default. -/
theorem profile_diff_roundtrip_witness :
    alookup (applyProfileData ⟨defaultGeneralSect, defaultRecordingSect, defaultUISect,
        defaultAdvancedSect, []⟩ (createProfileData sampleConfigC defaultConfigDict)).general
        "model" = alookup sampleConfigC.general "model" ∧
    alookup (applyProfileData ⟨defaultGeneralSect, defaultRecordingSect, defaultUISect,
        defaultAdvancedSect, []⟩ (createProfileData sampleConfigC defaultConfigDict)).general
        "last_profile" = alookup defaultGeneralSect "last_profile" ∧
    alookup (applyProfileData ⟨defaultGeneralSect, defaultRecordingSect, defaultUISect,
        defaultAdvancedSect, []⟩ (createProfileData sampleConfigC defaultConfigDict)).recording
        "trigger_key" = alookup sampleConfigC.recording "trigger_key" ∧
    alookup (applyProfileData ⟨defaultGeneralSect, defaultRecordingSect, defaultUISect,
        defaultAdvancedSect, []⟩ (createProfileData sampleConfigC defaultConfigDict)).advanced
        "chunk_size" = alookup sampleConfigC.advanced "chunk_size" := by
  have h := profile_diff_roundtrip sampleConfigC defaultConfigDict defaultGeneralSect
    defaultRecordingSect defaultUISect defaultAdvancedSect []
    (by rfl) (by rfl) (by rfl) (by rfl)
    (by decide) (by decide) (by decide) (by decide)
    (by decide) (by decide) (by decide) (by decide)
  exact ⟨h.1 "model" (by decide) (by decide), h.2.1,
    h.2.2.1 "trigger_key" (by decide), h.2.2.2.2 "chunk_size" (by decide)⟩

/-
  ConfigManager (src/whisper_to_me/config.py).

  The manager state is the loaded in-memory configuration plus the
  `current_profile` marker; the `_config is None → load_config()` guards are
  dropped by modelling a manager whose configuration is already loaded.
  Writing the TOML file (`save_config`) performs no further in-memory state
  change and is therefore not modelled.  Python clones the base configuration
  through `SectionClass(**asdict(section))`, which rebuilds every section
  object (deep-copying the nested audio_device dict), and `apply_diff`
  replaces whole attributes on that clone, so in this embedding the clone is
  a plain record copy and the base configuration is passed through unchanged.
-/

/-- State of a ConfigManager with its configuration loaded. -/
structure ManagerState where
  config : AppConfigS
  currentProfile : String
deriving DecidableEq, Repr

/-- ConfigManager.apply_profile: "default" returns the base configuration and
only moves the marker; an unknown name warns and returns the base; a stored
name applies the stored sparse data to a clone of the base sections, stamps
`general.last_profile`, and moves the marker. -/
def applyProfile (st : ManagerState) (profileName : String) : ManagerState × AppConfigS :=
  if profileName = "default" then
    ({ st with currentProfile := "default" }, st.config)
  else
    match alookup st.config.profiles profileName with
    | none => (st, st.config)
    | some profileData =>
        let clone : AppConfigS :=
          { general := st.config.general, recording := st.config.recording,
            ui := st.config.ui, advanced := st.config.advanced,
            profiles := st.config.profiles }
        let merged := applyProfileData clone profileData
        let merged2 :=
          { merged with
              general := aset merged.general "last_profile" (PyValue.pyStr profileName) }
        ({ st with currentProfile := profileName }, merged2)

/-- ConfigManager.delete_profile: refuses "default"; removes a stored name,
resetting the marker and `general.last_profile` when the deleted profile was
current; reports an unknown name as failure. -/
def deleteProfile (st : ManagerState) (name : String) : ManagerState × Bool :=
  if name = "default" then (st, false)
  else if ahas st.config.profiles name then
    let profiles1 := st.config.profiles.filter fun kv => decide (kv.1 ≠ name)
    let st1 := { st with config := { st.config with profiles := profiles1 } }
    let st2 :=
      if st1.currentProfile = name then
        { st1 with
            currentProfile := "default",
            config :=
              { st1.config with
                  general :=
                    aset st1.config.general "last_profile" (PyValue.pyStr "default") } }
      else st1
    (st2, true)
  else (st, false)

/-- C5: the "default" profile name is immutable.  delete_profile("default")
returns False and leaves the whole manager state — in particular the profile
store — unchanged, and apply_profile("default") returns the base
configuration unchanged, setting only the current-profile marker. -/
theorem default_profile_immutable (st : ManagerState) :
    deleteProfile st "default" = (st, false) ∧
    applyProfile st "default" = ({ st with currentProfile := "default" }, st.config) := by
  constructor
  · simp [deleteProfile]
  · simp [applyProfile]

/-- C10: applying a stored (non-default) profile is non-destructive to the
base configuration.  The overrides land only on the returned clone: after the
call the manager still holds the same general, recording, ui and advanced
sections (and the same profile store), only the current-profile marker moved
to the applied name. -/
theorem apply_profile_frame (st : ManagerState) (name : String) (pd : ProfileData)
    (hname : name ≠ "default") (hmem : alookup st.config.profiles name = some pd) :
    (applyProfile st name).1.config.general = st.config.general ∧
    (applyProfile st name).1.config.recording = st.config.recording ∧
    (applyProfile st name).1.config.ui = st.config.ui ∧
    (applyProfile st name).1.config.advanced = st.config.advanced ∧
    (applyProfile st name).1.config.profiles = st.config.profiles ∧
    (applyProfile st name).1.currentProfile = name := by
  simp [applyProfile, hname, hmem]

/-- Manager state holding the default configuration together with one stored
profile that overrides the trigger key, used to instantiate quantified
theorems. -/
def sampleManagerState : ManagerState :=
  { config :=
      { general := defaultGeneralSect, recording := defaultRecordingSect,
        ui := defaultUISect, advanced := defaultAdvancedSect,
        profiles :=
          [("hotkey-only", [("recording", [("trigger_key", PyValue.pyStr "<f9>")])])] },
    currentProfile := "default" }

/-- Witness for C10 at a concrete manager state and stored profile. -/
theorem apply_profile_frame_witness :
    (applyProfile sampleManagerState "hotkey-only").1.config.general =
        sampleManagerState.config.general ∧
    (applyProfile sampleManagerState "hotkey-only").1.config.recording =
        sampleManagerState.config.recording ∧
    (applyProfile sampleManagerState "hotkey-only").1.config.ui =
        sampleManagerState.config.ui ∧
    (applyProfile sampleManagerState "hotkey-only").1.config.advanced =
        sampleManagerState.config.advanced ∧
    (applyProfile sampleManagerState "hotkey-only").1.config.profiles =
        sampleManagerState.config.profiles ∧
    (applyProfile sampleManagerState "hotkey-only").1.currentProfile = "hotkey-only" :=
  apply_profile_frame sampleManagerState "hotkey-only"
    [("recording", [("trigger_key", PyValue.pyStr "<f9>")])] (by decide) (by rfl)

/-
  Profile switching (src/whisper_to_me/main.py WhisperToMe.switch_profile and
  src/whisper_to_me/component_factory.py ComponentFactory).
-/

/-- Attribute read on the general section of a resolved configuration (all
call sites below run on schema-complete configurations, where the field is
present). -/
def generalField (cfg : AppConfigS) (k : String) : PyValue :=
  (alookup cfg.general k).getD PyValue.pyNone

/-- Attribute read on the recording section of a resolved configuration. -/
def recordingField (cfg : AppConfigS) (k : String) : PyValue :=
  (alookup cfg.recording k).getD PyValue.pyNone

/-- Attribute read on the advanced section of a resolved configuration. -/
def advancedField (cfg : AppConfigS) (k : String) : PyValue :=
  (alookup cfg.advanced k).getD PyValue.pyNone

/-- Constructor arguments of a SpeechProcessor
(src/whisper_to_me/speech_processor.py): model size, device, language (Python
None when auto-detecting), VAD filter flag and initial prompt. -/
structure ProcSettings where
  modelSize : PyValue
  device : PyValue
  language : PyValue
  vadFilter : PyValue
  initialPrompt : PyValue
deriving DecidableEq, Repr

/-- SpeechProcessor construction as performed inline by WhisperToMe
(main.py): only model/device/language are passed, so vad_filter and
initial_prompt fall back to the constructor defaults True and "". -/
def mkSpeechProcessorMain (cfg : AppConfigS) : ProcSettings :=
  { modelSize := generalField cfg "model",
    device := generalField cfg "device",
    language :=
      if generalField cfg "language" = PyValue.pyStr "auto" then PyValue.pyNone
      else generalField cfg "language",
    vadFilter := PyValue.pyBool true,
    initialPrompt := PyValue.pyStr "" }

/-- ComponentFactory.create_speech_processor: also forwards the configured
vad_filter and initial_prompt. -/
def createSpeechProcessorFactory (cfg : AppConfigS) : ProcSettings :=
  { modelSize := generalField cfg "model",
    device := generalField cfg "device",
    language :=
      if generalField cfg "language" = PyValue.pyStr "auto" then PyValue.pyNone
      else generalField cfg "language",
    vadFilter := advancedField cfg "vad_filter",
    initialPrompt := advancedField cfg "initial_prompt" }

/-- ComponentFactory.recreate_speech_processor: rebuilds the speech processor
exactly when language, model, device or initial_prompt changed, returning the
new processor, and returns None otherwise. -/
def recreateSpeechProcessor (oldConfig newConfig : AppConfigS) : Option ProcSettings :=
  if generalField oldConfig "language" ≠ generalField newConfig "language" ∨
      generalField oldConfig "model" ≠ generalField newConfig "model" ∨
      generalField oldConfig "device" ≠ generalField newConfig "device" ∨
      advancedField oldConfig "initial_prompt" ≠ advancedField newConfig "initial_prompt"
  then some (createSpeechProcessorFactory newConfig)
  else none

/-- Runtime state of the WhisperToMe application that profile switching
touches: the config manager, the active resolved configuration, the hotkey
wiring produced by _update_from_config (mode flag plus the key strings the
HotKey bindings are parsed from; the discard binding exists only in
tap-mode), and the current speech processor with a rebuild counter. -/
structure MainAppState where
  mgr : ManagerState
  config : AppConfigS
  tapMode : Bool
  triggerKeyStr : PyValue
  discardKeyStr : Option PyValue
  processor : ProcSettings
  processorGen : Nat
deriving DecidableEq, Repr

/-- WhisperToMe._update_from_config: rebuild the hotkey bindings and mode
flag from the current configuration. -/
def updateFromConfigMain (app : MainAppState) : MainAppState :=
  if recordingField app.config "mode" = PyValue.pyStr "tap-mode" then
    { app with tapMode := true,
               triggerKeyStr := recordingField app.config "trigger_key",
               discardKeyStr := some (recordingField app.config "discard_key") }
  else
    { app with tapMode := false,
               triggerKeyStr := recordingField app.config "trigger_key",
               discardKeyStr := none }

/-- WhisperToMe.switch_profile: resolve the profile, remember the old
language/model/device, install the new configuration, rebuild hotkeys, and
reinitialise the speech processor only when language, model or device
changed (the initial prompt is not consulted, and the recreated processor is
built by mkSpeechProcessorMain).  The final save_config call only persists
to disk. -/
def switchProfileMain (app : MainAppState) (profileName : String) : MainAppState :=
  let resolved := applyProfile app.mgr profileName
  let oldLanguage := generalField app.config "language"
  let oldModel := generalField app.config "model"
  let oldDevice := generalField app.config "device"
  let app1 := { app with mgr := resolved.1, config := resolved.2 }
  let app2 := updateFromConfigMain app1
  if oldLanguage ≠ generalField resolved.2 "language" ∨
      oldModel ≠ generalField resolved.2 "model" ∨
      oldDevice ≠ generalField resolved.2 "device" then
    { app2 with processor := mkSpeechProcessorMain resolved.2,
                processorGen := app2.processorGen + 1 }
  else app2

/-- Base configuration for the C2 failing input: the defaults plus one stored
profile that overrides only advanced.initial_prompt. -/
def promptedBaseConfig : AppConfigS :=
  { general := defaultGeneralSect, recording := defaultRecordingSect,
    ui := defaultUISect, advanced := defaultAdvancedSect,
    profiles := [("prompted", [("advanced", [("initial_prompt", PyValue.pyStr "dictate")])])] }

/-- Application state on the default profile of promptedBaseConfig. -/
def promptedApp : MainAppState :=
  { mgr := { config := promptedBaseConfig, currentProfile := "default" },
    config := promptedBaseConfig,
    tapMode := false,
    triggerKeyStr := PyValue.pyStr "<scroll_lock>",
    discardKeyStr := none,
    processor := mkSpeechProcessorMain promptedBaseConfig,
    processorGen := 0 }

/-- C2 divergence: switching WhisperToMe to a profile that changes only the
initial prompt does change the resolved advanced.initial_prompt and would
make ComponentFactory.recreate_speech_processor rebuild the transcriber, yet
WhisperToMe.switch_profile keeps the old speech processor untouched (its
rebuild check reads only language, model and device); the hotkey bindings
are still rebuilt from the new recording settings. -/
theorem switch_profile_prompt_divergence :
    advancedField (switchProfileMain promptedApp "prompted").config "initial_prompt" ≠
        advancedField promptedApp.config "initial_prompt" ∧
    recreateSpeechProcessor promptedApp.config
        (switchProfileMain promptedApp "prompted").config ≠ none ∧
    (switchProfileMain promptedApp "prompted").processorGen = promptedApp.processorGen ∧
    (switchProfileMain promptedApp "prompted").processor = promptedApp.processor ∧
    (switchProfileMain promptedApp "prompted").triggerKeyStr =
        recordingField (switchProfileMain promptedApp "prompted").config "trigger_key" := by
  refine ⟨by decide, by decide, by decide, by decide, by decide⟩

/-
  Hotkey state machine: pynput keyboard.HotKey press/release tracking plus the
  handlers wired by WhisperToMe (main.py _update_from_config, on_key_press,
  on_key_release, _on_trigger_press, _on_trigger_tap, _on_discard_tap,
  _stop_and_transcribe, _discard_recording).  Keys are already canonical
  (the listener.canonical conversion is applied before the hotkeys see a key)
  and are represented by naturals.  _stop_and_transcribe and
  _discard_recording appear here through the recording flag they clear and
  the semantic event they raise; their audio/transcription body is modelled
  separately below.
-/

/-- pynput keyboard.HotKey: the parsed key set and the subset currently held
(its internal _state). -/
structure HotKeyM where
  keys : Finset ℕ
  pressedKeys : Finset ℕ
deriving DecidableEq

/-- HotKey.press: an untracked member key is added to the held set; the
returned flag tells whether the held set just became the full combination,
in which case pynput fires the callback. -/
def hkPress (h : HotKeyM) (k : ℕ) : HotKeyM × Bool :=
  if k ∈ h.keys ∧ k ∉ h.pressedKeys then
    let s := insert k h.pressedKeys
    ({ h with pressedKeys := s }, decide (s = h.keys))
  else (h, false)

/-- HotKey.release: a held key is removed from the held set. -/
def hkRelease (h : HotKeyM) (k : ℕ) : HotKeyM :=
  if k ∈ h.pressedKeys then { h with pressedKeys := h.pressedKeys.erase k } else h

/-- Semantic recording events raised by the state machine. -/
inductive SemEvent where
  | startRecording
  | stopAndTranscribe
  | discardRecording
deriving DecidableEq, Repr

/-- Hotkey-machine state of WhisperToMe: mode flag, trigger HotKey, discard
HotKey (None in push-to-talk mode), recording flag and the trigger_pressed
flag used by push-to-talk. -/
structure HotkeyState where
  tapMode : Bool
  trigger : HotKeyM
  discard : Option HotKeyM
  isRecording : Bool
  triggerPressed : Bool
deriving DecidableEq

/-- WhisperToMe._on_trigger_tap: toggle recording; the stop half goes through
_stop_and_transcribe, which raises stopAndTranscribe. -/
def onTriggerTapM (s : HotkeyState) : HotkeyState × List SemEvent :=
  if s.isRecording = false then
    ({ s with isRecording := true }, [SemEvent.startRecording])
  else
    ({ s with isRecording := false }, [SemEvent.stopAndTranscribe])

/-- WhisperToMe._on_trigger_press (push-to-talk): record that the trigger
combination is satisfied and start recording when idle. -/
def onTriggerPressM (s : HotkeyState) : HotkeyState × List SemEvent :=
  let s1 := { s with triggerPressed := true }
  if s1.isRecording = false then
    ({ s1 with isRecording := true }, [SemEvent.startRecording])
  else (s1, [])

/-- WhisperToMe._on_discard_tap (tap-mode): discard only while recording. -/
def onDiscardTapM (s : HotkeyState) : HotkeyState × List SemEvent :=
  if s.isRecording then ({ s with isRecording := false }, [SemEvent.discardRecording])
  else (s, [])

/-- First half of WhisperToMe.on_key_press: `self.trigger_hotkey.press(key)`,
firing _on_trigger_tap in tap-mode and _on_trigger_press otherwise when the
combination becomes complete. -/
def pressTriggerPhase (s : HotkeyState) (k : ℕ) : HotkeyState × List SemEvent :=
  let tp := hkPress s.trigger k
  let s1 := { s with trigger := tp.1 }
  if tp.2 then (if s1.tapMode then onTriggerTapM s1 else onTriggerPressM s1)
  else (s1, [])

/-- Second half of WhisperToMe.on_key_press: `self.discard_hotkey.press(key)`
when a discard HotKey is wired, firing _on_discard_tap when its combination
becomes complete. -/
def pressDiscardPhase (r1 : HotkeyState × List SemEvent) (k : ℕ) :
    HotkeyState × List SemEvent :=
  match r1.1.discard with
  | none => r1
  | some d =>
      let dp := hkPress d k
      let s2 := { r1.1 with discard := some dp.1 }
      if dp.2 then
        let r2 := onDiscardTapM s2
        (r2.1, r1.2 ++ r2.2)
      else (s2, r1.2)

/-- WhisperToMe.on_key_press: feed the canonical key to the trigger HotKey
and then to the discard HotKey. -/
def stepPress (s : HotkeyState) (k : ℕ) : HotkeyState × List SemEvent :=
  pressDiscardPhase (pressTriggerPhase s k) k

/-- WhisperToMe.on_key_release: feed the key to both HotKeys, then in
push-to-talk mode stop and transcribe when the trigger had been satisfied
while recording. -/
def stepRelease (s : HotkeyState) (k : ℕ) : HotkeyState × List SemEvent :=
  let s1 := { s with trigger := hkRelease s.trigger k,
                     discard := s.discard.map (fun d => hkRelease d k) }
  if s1.tapMode = false ∧ s1.triggerPressed = true ∧ s1.isRecording = true then
    ({ s1 with triggerPressed := false, isRecording := false },
     [SemEvent.stopAndTranscribe])
  else (s1, [])

/-- Canonical key press/release event delivered by the listener. -/
inductive KeyEvent where
  | press (k : ℕ)
  | release (k : ℕ)
deriving DecidableEq, Repr

/-- One key event processed by the WhisperToMe listener callbacks. -/
def stepKey (s : HotkeyState) : KeyEvent → HotkeyState × List SemEvent
  | KeyEvent.press k => stepPress s k
  | KeyEvent.release k => stepRelease s k

/-- Run of the machine over a list of key events, collecting the semantic
events in order. -/
def runKeys (s : HotkeyState) : List KeyEvent → HotkeyState × List SemEvent
  | [] => (s, [])
  | e :: es =>
      let r := stepKey s e
      let rest := runKeys r.1 es
      (rest.1, r.2 ++ rest.2)

/-- WhisperToMe._update_from_config: install fresh HotKey bindings for the
given mode; the discard HotKey is wired only in tap-mode.  The recording and
trigger_pressed flags are not touched. -/
def updateFromConfigKeys (mode : String) (trigKeys discKeys : Finset ℕ)
    (s : HotkeyState) : HotkeyState :=
  if mode = "tap-mode" then
    { s with tapMode := true, trigger := ⟨trigKeys, ∅⟩, discard := some ⟨discKeys, ∅⟩ }
  else
    { s with tapMode := false, trigger := ⟨trigKeys, ∅⟩, discard := none }

theorem pressTriggerPhase_discard (s : HotkeyState) (k : ℕ) :
    (pressTriggerPhase s k).1.discard = s.discard := by
  unfold pressTriggerPhase onTriggerTapM onTriggerPressM
  dsimp only
  split_ifs <;> rfl

theorem pressTriggerPhase_tapMode (s : HotkeyState) (k : ℕ) :
    (pressTriggerPhase s k).1.tapMode = s.tapMode := by
  unfold pressTriggerPhase onTriggerTapM onTriggerPressM
  dsimp only
  split_ifs <;> rfl

theorem pressTriggerPhase_no_discard_event (s : HotkeyState) (k : ℕ) :
    SemEvent.discardRecording ∉ (pressTriggerPhase s k).2 := by
  unfold pressTriggerPhase onTriggerTapM onTriggerPressM
  dsimp only
  split_ifs <;> simp

theorem pressDiscardPhase_none (r1 : HotkeyState × List SemEvent) (k : ℕ)
    (h : r1.1.discard = none) : pressDiscardPhase r1 k = r1 := by
  unfold pressDiscardPhase
  rw [h]

theorem pressDiscardPhase_tapMode (r1 : HotkeyState × List SemEvent) (k : ℕ) :
    (pressDiscardPhase r1 k).1.tapMode = r1.1.tapMode := by
  unfold pressDiscardPhase onDiscardTapM
  cases r1.1.discard <;> simp <;> split_ifs <;> rfl

theorem stepPress_discard_none (s : HotkeyState) (k : ℕ) (h : s.discard = none) :
    (stepPress s k).1.discard = none ∧
      SemEvent.discardRecording ∉ (stepPress s k).2 := by
  unfold stepPress
  rw [pressDiscardPhase_none _ _ (by rw [pressTriggerPhase_discard]; exact h)]
  exact ⟨by rw [pressTriggerPhase_discard]; exact h,
    pressTriggerPhase_no_discard_event s k⟩

theorem stepPress_tapMode (s : HotkeyState) (k : ℕ) :
    (stepPress s k).1.tapMode = s.tapMode := by
  unfold stepPress
  rw [pressDiscardPhase_tapMode, pressTriggerPhase_tapMode]

theorem stepRelease_tapMode (s : HotkeyState) (k : ℕ) :
    (stepRelease s k).1.tapMode = s.tapMode := by
  unfold stepRelease
  dsimp only
  split_ifs <;> rfl

theorem stepRelease_discard_none (s : HotkeyState) (k : ℕ) (h : s.discard = none) :
    (stepRelease s k).1.discard = none ∧
      SemEvent.discardRecording ∉ (stepRelease s k).2 := by
  unfold stepRelease
  dsimp only
  split_ifs <;> simp [h]

theorem stepKey_tapMode (s : HotkeyState) (e : KeyEvent) :
    (stepKey s e).1.tapMode = s.tapMode := by
  cases e with
  | press k => exact stepPress_tapMode s k
  | release k => exact stepRelease_tapMode s k

theorem stepKey_discard_none (s : HotkeyState) (e : KeyEvent) (h : s.discard = none) :
    (stepKey s e).1.discard = none ∧
      SemEvent.discardRecording ∉ (stepKey s e).2 := by
  cases e with
  | press k => exact stepPress_discard_none s k h
  | release k => exact stepRelease_discard_none s k h

theorem runKeys_tapMode (es : List KeyEvent) (s : HotkeyState) :
    (runKeys s es).1.tapMode = s.tapMode := by
  induction es generalizing s with
  | nil => rfl
  | cons e t ih =>
      unfold runKeys
      rw [ih, stepKey_tapMode]

theorem runKeys_discard_none (es : List KeyEvent) (s : HotkeyState)
    (h : s.discard = none) :
    (runKeys s es).1.discard = none ∧
      SemEvent.discardRecording ∉ (runKeys s es).2 := by
  induction es generalizing s with
  | nil => exact ⟨h, by simp [runKeys]⟩
  | cons e t ih =>
      rcases stepKey_discard_none s e h with ⟨h1, h2⟩
      rcases ih (stepKey s e).1 h1 with ⟨h3, h4⟩
      unfold runKeys
      refine ⟨h3, ?_⟩
      intro hmem
      rcases List.mem_append.mp hmem with hm | hm
      · exact h2 hm
      · exact h4 hm

theorem stepRelease_tap_keeps_recording (s : HotkeyState) (k : ℕ)
    (h : s.tapMode = true) :
    (stepRelease s k).1.isRecording = s.isRecording ∧ (stepRelease s k).2 = [] := by
  unfold stepRelease
  dsimp only
  rw [if_neg (by simp [h])]
  exact ⟨rfl, rfl⟩

theorem stepPress_tap_stop_source (s : HotkeyState) (k : ℕ) (htap : s.tapMode = true)
    (hrec : s.isRecording = true) (hstop : (stepPress s k).1.isRecording = false) :
    (hkPress s.trigger k).2 = true ∨
      ∃ d, s.discard = some d ∧ (hkPress d k).2 = true := by
  by_cases hf : (hkPress s.trigger k).2 = true
  · exact Or.inl hf
  · right
    have hPh : pressTriggerPhase s k = ({ s with trigger := (hkPress s.trigger k).1 }, []) := by
      unfold pressTriggerPhase
      rw [if_neg (by simpa using hf)]
    rw [stepPress, hPh] at hstop
    cases hd : s.discard with
    | none =>
        rw [pressDiscardPhase_none _ _ (by simpa using hd)] at hstop
        simp at hstop
        rw [hstop] at hrec
        exact absurd hrec (by simp)
    | some d =>
        refine ⟨d, rfl, ?_⟩
        by_cases hdf : (hkPress d k).2 = true
        · exact hdf
        · exfalso
          unfold pressDiscardPhase at hstop
          simp only [hd] at hstop
          rw [if_neg (by simpa using hdf)] at hstop
          simp at hstop
          rw [hstop] at hrec
          exact absurd hrec (by simp)

/-- C3: mode exclusivity.  With push-to-talk configured, no event sequence
can ever produce a DiscardRecording event (no discard HotKey is wired).
With tap-mode configured, a release of any key never changes the recording
flag, and a key press can only stop a running recording when it completes
the trigger combination (second full trigger press) or the discard
combination. -/
theorem mode_exclusivity :
    (∀ (trigKeys discKeys : Finset ℕ) (s0 : HotkeyState) (es : List KeyEvent),
        SemEvent.discardRecording ∉
          (runKeys (updateFromConfigKeys "push-to-talk" trigKeys discKeys s0) es).2) ∧
    (∀ (trigKeys discKeys : Finset ℕ) (s0 : HotkeyState) (es : List KeyEvent) (k : ℕ),
        (stepRelease
            (runKeys (updateFromConfigKeys "tap-mode" trigKeys discKeys s0) es).1
            k).1.isRecording =
          (runKeys (updateFromConfigKeys "tap-mode" trigKeys discKeys s0) es).1.isRecording) ∧
    (∀ (trigKeys discKeys : Finset ℕ) (s0 : HotkeyState) (es : List KeyEvent) (k : ℕ),
        (runKeys (updateFromConfigKeys "tap-mode" trigKeys discKeys s0) es).1.isRecording
            = true →
        (stepPress (runKeys (updateFromConfigKeys "tap-mode" trigKeys discKeys s0) es).1
            k).1.isRecording = false →
        (hkPress
            (runKeys (updateFromConfigKeys "tap-mode" trigKeys discKeys s0) es).1.trigger
            k).2 = true ∨
          ∃ d, (runKeys (updateFromConfigKeys "tap-mode" trigKeys discKeys s0) es).1.discard
              = some d ∧ (hkPress d k).2 = true) := by
  refine ⟨?_, ?_, ?_⟩
  · intro trigKeys discKeys s0 es
    have hnone : (updateFromConfigKeys "push-to-talk" trigKeys discKeys s0).discard = none := by
      simp [updateFromConfigKeys]
    exact (runKeys_discard_none es _ hnone).2
  · intro trigKeys discKeys s0 es k
    have htap : (runKeys (updateFromConfigKeys "tap-mode" trigKeys discKeys s0) es).1.tapMode
        = true := by
      rw [runKeys_tapMode]
      simp [updateFromConfigKeys]
    exact (stepRelease_tap_keeps_recording _ k htap).1
  · intro trigKeys discKeys s0 es k hrec hstop
    have htap : (runKeys (updateFromConfigKeys "tap-mode" trigKeys discKeys s0) es).1.tapMode
        = true := by
      rw [runKeys_tapMode]
      simp [updateFromConfigKeys]
    exact stepPress_tap_stop_source _ k htap hrec hstop

/-- Witness for C3: a push-to-talk machine bound to key 1 sees no discard on
pressing and releasing the discard key 2; a tap machine that has started
recording by pressing key 1 is unaffected by releasing key 1, and its
recording run stopped by a second press of key 1 satisfies the
trigger-completion disjunction. -/
theorem mode_exclusivity_witness :
    (SemEvent.discardRecording ∉
      (runKeys (updateFromConfigKeys "push-to-talk" {1} {2}
          ⟨false, ⟨∅, ∅⟩, none, false, false⟩)
        [KeyEvent.press 2, KeyEvent.release 2]).2) ∧
    ((stepRelease
        (runKeys (updateFromConfigKeys "tap-mode" {1} {2}
            ⟨false, ⟨∅, ∅⟩, none, false, false⟩)
          [KeyEvent.press 1]).1 1).1.isRecording =
      (runKeys (updateFromConfigKeys "tap-mode" {1} {2}
          ⟨false, ⟨∅, ∅⟩, none, false, false⟩)
        [KeyEvent.press 1]).1.isRecording) ∧
    ((hkPress
        (runKeys (updateFromConfigKeys "tap-mode" {1} {2}
            ⟨false, ⟨∅, ∅⟩, none, false, false⟩)
          [KeyEvent.press 1, KeyEvent.release 1]).1.trigger 1).2 = true ∨
      ∃ d, (runKeys (updateFromConfigKeys "tap-mode" {1} {2}
            ⟨false, ⟨∅, ∅⟩, none, false, false⟩)
          [KeyEvent.press 1, KeyEvent.release 1]).1.discard = some d ∧
        (hkPress d 1).2 = true) :=
  ⟨mode_exclusivity.1 {1} {2} ⟨false, ⟨∅, ∅⟩, none, false, false⟩
      [KeyEvent.press 2, KeyEvent.release 2],
   mode_exclusivity.2.1 {1} {2} ⟨false, ⟨∅, ∅⟩, none, false, false⟩
      [KeyEvent.press 1] 1,
   mode_exclusivity.2.2 {1} {2} ⟨false, ⟨∅, ∅⟩, none, false, false⟩
      [KeyEvent.press 1, KeyEvent.release 1] 1 (by decide) (by decide)⟩

/-- C4: in push-to-talk mode, whenever any key is released while recording is
active and the trigger combination had been satisfied, the machine emits
StopAndTranscribe, returns to idle, and clears the trigger-satisfied flag —
regardless of whether the released key belongs to the trigger combination. -/
theorem ptt_release_stops (s : HotkeyState) (k : ℕ) (hmode : s.tapMode = false)
    (hp : s.triggerPressed = true) (hrec : s.isRecording = true) :
    (stepRelease s k).2 = [SemEvent.stopAndTranscribe] ∧
    (stepRelease s k).1.isRecording = false ∧
    (stepRelease s k).1.triggerPressed = false := by
  unfold stepRelease
  rw [if_pos (by simp [hmode, hp, hrec])]
  exact ⟨rfl, rfl, rfl⟩

/-- Witness for C4: a recording push-to-talk machine whose trigger is the
held combination of keys 1 and 2 stops on release of key 7, which is not a
member of the combination. -/
theorem ptt_release_stops_witness :
    (stepRelease ⟨false, ⟨{1, 2}, {1, 2}⟩, none, true, true⟩ 7).2 =
        [SemEvent.stopAndTranscribe] ∧
    (stepRelease ⟨false, ⟨{1, 2}, {1, 2}⟩, none, true, true⟩ 7).1.isRecording = false ∧
    (stepRelease ⟨false, ⟨{1, 2}, {1, 2}⟩, none, true, true⟩ 7).1.triggerPressed = false :=
  ptt_release_stops ⟨false, ⟨{1, 2}, {1, 2}⟩, none, true, true⟩ 7 rfl rfl rfl

/-
  Transcription (src/whisper_to_me/speech_processor.py SpeechProcessor.transcribe)
  and the orchestrator branch it feeds
  (src/whisper_to_me/main.py WhisperToMe._stop_and_transcribe).
-/

/-- Python str.strip: drop leading and trailing whitespace.  Written over the
character list so that concrete instances reduce by decide. -/
def pyStrip (s : String) : String :=
  String.mk (((s.data.dropWhile Char.isWhitespace).reverse.dropWhile
    Char.isWhitespace).reverse)

/-- One segment yielded by the whisper engine: its text and its end time. -/
structure Segment where
  text : String
  endTime : ℚ
deriving DecidableEq

/-- Outcome of one call into the external faster-whisper engine
(`self.model.transcribe(...)` plus the iteration over its lazy segments):
either some exception is raised, or segments plus detected language and
language probability are produced. -/
inductive EngineResult where
  | raises
  | returns (segments : List Segment) (language : String) (languageProb : ℚ)
deriving DecidableEq

/-- SpeechProcessor.transcribe under a loaded model: empty or missing audio
short-circuits to the empty result; the try block joins the stripped segment
texts, tracks the running maximum of the segment end times, and any engine
exception is caught and converted into the same empty result
("", 0.0, "", 0.0). -/
def transcribeM {α : Type} (audioData : Option (List α)) (engine : EngineResult) :
    String × ℚ × String × ℚ :=
  match audioData with
  | none => ("", 0, "", 0)
  | some a =>
      if a.length = 0 then ("", 0, "", 0)
      else
        match engine with
        | EngineResult.raises => ("", 0, "", 0)
        | EngineResult.returns segments language languageProb =>
            let textSegments := segments.map fun sg => pyStrip sg.text
            let totalDuration := segments.foldl (fun d sg => max d sg.endTime) 0
            (pyStrip (String.intercalate " " textSegments), totalDuration,
              language, languageProb)

/-- Collaborator invocations and user-facing reports recorded while the
orchestrator handles one StopAndTranscribe. -/
inductive OrchAction where
  | invokeTranscriber
  | typeText (text : String) (trailingSpace : Bool)
  | warnNoSpeech
  | warnNoAudio
deriving DecidableEq, Repr

/-- Orchestrator state touched by _stop_and_transcribe: the recording flag
and the completed-session counter. -/
structure OrchState where
  isRecording : Bool
  recordingCounter : ℕ
deriving DecidableEq, Repr

/-- WhisperToMe._stop_and_transcribe: clear the recording flag, fetch the
recorder buffer, and only when it is present and non-empty run the audio
preparation (get_audio_data_for_whisper, an external resampling step modelled
by the `prep` parameter), invoke the transcriber, type non-blank text or
report "No speech detected", and bump the session counter; otherwise report
"No audio recorded". -/
def stopAndTranscribeM {α : Type} (trailingSpace : Bool) (prep : List α → List α)
    (audioData : Option (List α)) (engine : EngineResult) (s : OrchState) :
    OrchState × List OrchAction :=
  let s1 : OrchState := { s with isRecording := false }
  match audioData with
  | some a =>
      if a.length > 0 then
        let whisperAudio := prep a
        let r := transcribeM (some whisperAudio) engine
        let acts : List OrchAction :=
          if r.1 ≠ "" ∧ pyStrip r.1 ≠ "" then [OrchAction.typeText r.1 trailingSpace]
          else [OrchAction.warnNoSpeech]
        ({ s1 with recordingCounter := s1.recordingCounter + 1 },
          OrchAction.invokeTranscriber :: acts)
      else (s1, [OrchAction.warnNoAudio])
  | none => (s1, [OrchAction.warnNoAudio])

/-- C6: when the recorder hands back no buffer or a zero-length buffer,
StopAndTranscribe reports "No audio recorded" and returns to idle without
invoking the transcriber or the keystroke injector, and without counting a
session. -/
theorem empty_audio_short_circuit {α : Type} (trailingSpace : Bool)
    (prep : List α → List α) (audioData : Option (List α)) (engine : EngineResult)
    (s : OrchState)
    (h : audioData = none ∨ audioData = some ([] : List α)) :
    (stopAndTranscribeM trailingSpace prep audioData engine s).2 =
        [OrchAction.warnNoAudio] ∧
    (stopAndTranscribeM trailingSpace prep audioData engine s).1.isRecording = false ∧
    (stopAndTranscribeM trailingSpace prep audioData engine s).1.recordingCounter =
        s.recordingCounter ∧
    OrchAction.invokeTranscriber ∉
        (stopAndTranscribeM trailingSpace prep audioData engine s).2 ∧
    (∀ t b, OrchAction.typeText t b ∉
        (stopAndTranscribeM trailingSpace prep audioData engine s).2) := by
  rcases h with h | h <;> subst h <;>
    simp [stopAndTranscribeM]

/-- Witness for C6 on both empty shapes of the buffer. -/
theorem empty_audio_short_circuit_witness :
    (stopAndTranscribeM false id (none : Option (List ℕ)) EngineResult.raises
        ⟨true, 5⟩).2 = [OrchAction.warnNoAudio] ∧
    (stopAndTranscribeM false id (some ([] : List ℕ)) EngineResult.raises
        ⟨true, 5⟩).1.recordingCounter = 5 :=
  ⟨(empty_audio_short_circuit false id none EngineResult.raises ⟨true, 5⟩
      (Or.inl rfl)).1,
   (empty_audio_short_circuit false id (some []) EngineResult.raises ⟨true, 5⟩
      (Or.inr rfl)).2.2.1⟩

/-- C7: when the engine raises on a non-empty buffer the exception does not
propagate — transcribe returns the empty result, the orchestrator reports
"No speech detected", still increments the session counter, never reaches
the keystroke injector, and returns to idle (the handler returns normally,
so the key-listener callback path keeps running). -/
theorem engine_error_recovery {α : Type} (trailingSpace : Bool)
    (prep : List α → List α) (a : List α) (s : OrchState) (h : a.length > 0) :
    transcribeM (some (prep a)) EngineResult.raises = ("", 0, "", 0) ∧
    (stopAndTranscribeM trailingSpace prep (some a) EngineResult.raises s).2 =
        [OrchAction.invokeTranscriber, OrchAction.warnNoSpeech] ∧
    (stopAndTranscribeM trailingSpace prep (some a) EngineResult.raises s).1.recordingCounter
        = s.recordingCounter + 1 ∧
    (∀ t b, OrchAction.typeText t b ∉
        (stopAndTranscribeM trailingSpace prep (some a) EngineResult.raises s).2) ∧
    (stopAndTranscribeM trailingSpace prep (some a) EngineResult.raises s).1.isRecording
        = false := by
  have htr : transcribeM (some (prep a)) EngineResult.raises = ("", 0, "", 0) := by
    unfold transcribeM
    dsimp only
    split_ifs <;> rfl
  refine ⟨htr, ?_, ?_, ?_, ?_⟩ <;>
    simp [stopAndTranscribeM, htr, h, pyStrip]

/-- Witness for C7 at a concrete one-sample buffer. -/
theorem engine_error_recovery_witness :
    transcribeM (some (id [(3 : ℕ)])) EngineResult.raises = ("", 0, "", 0) ∧
    (stopAndTranscribeM false id (some [(3 : ℕ)]) EngineResult.raises ⟨true, 5⟩).2 =
        [OrchAction.invokeTranscriber, OrchAction.warnNoSpeech] ∧
    (stopAndTranscribeM false id (some [(3 : ℕ)]) EngineResult.raises
        ⟨true, 5⟩).1.recordingCounter = 6 :=
  ⟨(engine_error_recovery false id [3] ⟨true, 5⟩ (by decide)).1,
   (engine_error_recovery false id [3] ⟨true, 5⟩ (by decide)).2.1,
   (engine_error_recovery false id [3] ⟨true, 5⟩ (by decide)).2.2.1⟩

/-
  ConfigValidator._validate_advanced_config
  (src/whisper_to_me/config_validator.py), the branch
  validate_config_section("advanced", section) tail-calls.  The section
  object is an AdvancedConfig dataclass instance
  (src/whisper_to_me/config.py): fields chunk_size, vad_filter,
  initial_prompt.  Field values are dynamic (they may come straight from
  TOML), so they are modelled as PyValue; Python attribute access is a
  lookup that raises AttributeError on a missing field.
-/

/-- Python exception surfaced by validation code: the module's own
ValidationError, or a built-in AttributeError from reading a missing
attribute. -/
inductive PyError where
  | validationError (msg : String)
  | attributeError (attrName : String)
deriving DecidableEq, Repr

/-- AdvancedConfig dataclass instance with dynamic field values. -/
structure AdvancedConfigObj where
  chunk_size : PyValue
  vad_filter : PyValue
  initial_prompt : PyValue
deriving DecidableEq, Repr

/-- Attribute access on an AdvancedConfig instance: only the three dataclass
fields exist. -/
def advancedGetattr (config : AdvancedConfigObj) (attr : String) : Option PyValue :=
  if attr = "chunk_size" then some config.chunk_size
  else if attr = "vad_filter" then some config.vad_filter
  else if attr = "initial_prompt" then some config.initial_prompt
  else none

/-- Python isinstance(value, int): true for ints and also for bools, which
subclass int. -/
def pyIsInstanceInt : PyValue → Bool
  | PyValue.pyInt _ => true
  | PyValue.pyBool _ => true
  | _ => false

/-- Python isinstance(value, bool). -/
def pyIsInstanceBool : PyValue → Bool
  | PyValue.pyBool _ => true
  | _ => false

/-- Python `value <= 0` for the int-like values on which the validator
evaluates it (the `or` short-circuit guarantees isinstance already held;
True counts as 1 and False as 0). -/
def pyIntNonpos : PyValue → Bool
  | PyValue.pyInt n => decide (n ≤ 0)
  | PyValue.pyBool b => b = false
  | _ => false

/-- ConfigValidator._validate_advanced_config, line for line: it first reads
`config.sample_rate`, then `config.chunk_size`, then `config.vad_filter`,
raising ValidationError on a failed check; any attribute read of a field the
object does not have raises AttributeError instead. -/
def validateAdvancedConfig (config : AdvancedConfigObj) : Except PyError AdvancedConfigObj :=
  match advancedGetattr config "sample_rate" with
  | none => Except.error (PyError.attributeError "sample_rate")
  | some sampleRate =>
      if pyIsInstanceInt sampleRate = false ∨ pyIntNonpos sampleRate = true then
        Except.error (PyError.validationError "sample_rate must be a positive integer")
      else
        match advancedGetattr config "chunk_size" with
        | none => Except.error (PyError.attributeError "chunk_size")
        | some chunkSize =>
            if pyIsInstanceInt chunkSize = false ∨ pyIntNonpos chunkSize = true then
              Except.error (PyError.validationError "chunk_size must be a positive integer")
            else
              match advancedGetattr config "vad_filter" with
              | none => Except.error (PyError.attributeError "vad_filter")
              | some vadFilter =>
                  if pyIsInstanceBool vadFilter = false then
                    Except.error (PyError.validationError "vad_filter must be a boolean")
                  else Except.ok config

/-- C9 divergence: validating the advanced section never gets past the stale
`config.sample_rate` read — AdvancedConfig has no sample_rate field, so for
every AdvancedConfig value the validator raises AttributeError, not
ValidationError, and never returns the section. -/
theorem validate_advanced_raises_attribute_error (config : AdvancedConfigObj) :
    validateAdvancedConfig config = Except.error (PyError.attributeError "sample_rate") := by
  simp [validateAdvancedConfig, advancedGetattr]

end WhisperToMe
